import Mathlib

/-
Verification of the pdf2image-api conversion pipeline.

The repository has two near-identical FastAPI handlers:
  * main.py              : gated variant (bearer-token Auth Gate, `verify_api_key`)
  * serverless_main.py   : non-gated variant (AWS Lambda)
Both expose POST /convert = `convert_pdf_to_images`.  The two function bodies are
textually identical except for how the `convert_from_bytes` call is built
(main.py adds the `jpeg_quality` key only for JPEG/JPG with a supplied quality;
serverless_main.py always passes `jpeg_quality=...`, using None outside JPEG/JPG).
The shallow embedding below therefore factors the shared body into
`convert_generic`, parameterised by the rasterizer-argument builder, and
instantiates it twice.

External collaborators (pdf2image's `convert_from_bytes` as the Rasterizer,
PIL's `Image.save` as the Encoder) are opaque: the handlers are parameterised by
oracles `rasterize` and `save` returning `Except String _` (a thrown Python
exception with its message).  `zipfile.ZipFile` is modelled as the ordered list
of (entry name, entry bytes) pairs written with `writestr`.

Python exception semantics matter: in both files the 413 size check and the
400 "No pages found in PDF" check raise `HTTPException` INSIDE the
`try:` block, and `HTTPException` is a subclass of `Exception`, so the trailing
`except Exception as e: raise HTTPException(500, "Conversion failed: " + str(e))`
catches them and re-raises them as 500s.  The embedding models the try block as
a computation in `Except Exn _` whose errors are re-wrapped by `afterValidation`.
-/

namespace Pdf2Image

/-- HTTP-level error: a FastAPI `HTTPException` with status code and detail message. -/
structure HTTPError where
  status_code : Nat
  detail : String
deriving DecidableEq, Repr

/-- Arguments of the `convert_from_bytes` (Rasterizer) call.  The field
`jpeg_quality` distinguishes the keyword argument being absent (`none`, as in
main.py for non-JPEG formats) from being present with Python value `None`
(`some none`, as in serverless_main.py for non-JPEG formats). -/
structure RasterArgs where
  content : List Nat
  dpi : Int
  fmt : String
  jpeg_quality : Option (Option Int)
deriving DecidableEq, Repr

/-- Successful response of the convert endpoint: either one streamed image, or a
ZIP archive modelled as its list of (name, bytes) entries in write order. -/
inductive Response where
  | single (body : List Nat) (media_type : String) (content_disposition : String)
  | zipArchive (entries : List (String × List Nat)) (media_type : String)
      (content_disposition : String)
deriving DecidableEq, Repr

/-- Python exception raised inside the handler's try block: either an
`HTTPException` (size check, zero-page check) or any other exception thrown by
the rasterizer / encoder, carrying its message. -/
inductive Exn where
  | http (e : HTTPError)
  | other (msg : String)
deriving DecidableEq, Repr

/-- Rendering `str(e)` for an `HTTPException`: starlette's
`HTTPException.__str__` returns "status_code: detail". -/
def strOfHTTPError (e : HTTPError) : String :=
  toString e.status_code ++ ": " ++ e.detail

/-- Rendering `str(e)` for any exception caught by the handler's except clause. -/
def strOfExn : Exn → String
  | .http e => strOfHTTPError e
  | .other msg => msg

/-- Python `str.lower()` (the strings involved are ASCII, where `Char.toLower`
agrees with Python), written over the character list so it reduces. -/
def strLower (s : String) : String := ⟨s.data.map Char.toLower⟩

/-- Python `str.upper()` (ASCII agreement with `Char.toUpper`). -/
def strUpper (s : String) : String := ⟨s.data.map Char.toUpper⟩

/-- Python `str.endswith(suffix)`. -/
def strEndsWith (s suffix : String) : Bool := suffix.data.isSuffixOf s.data

/-- One inbound POST /convert request: uploaded filename, `format`, `dpi` and
`quality` query fields, and the uploaded document bytes. -/
structure Request where
  filename : String
  format : String
  dpi : Int
  quality : Option Int
  content : List Nat
deriving DecidableEq, Repr

/-- Configuration constant `SUPPORTED_FORMATS` (identical in both files). -/
def SUPPORTED_FORMATS : List String := ["PNG", "JPEG", "JPG", "WEBP"]

/-- Configuration constant `MAX_FILE_SIZE = 50 * 1024 * 1024` (50MB). -/
def MAX_FILE_SIZE : Nat := 50 * 1024 * 1024

/-- Configuration constant `DEFAULT_DPI = 300`. -/
def DEFAULT_DPI : Int := 300

/-- Test `quality < 1 or quality > 100` when a quality was supplied, false when
`quality is None` (the outer `quality is not None` guard). -/
def qualityOutOfRange : Option Int → Bool
  | some q => decide (q < 1) || decide (q > 100)
  | none => false

/-- Rasterizer arguments built in main.py: `convert_params = {'dpi': dpi, 'fmt':
format.lower()}` with `jpeg_quality` added only when `format in ["JPEG", "JPG"]
and quality is not None`. -/
def mainConvertParams (format : String) (quality : Option Int) (content : List Nat)
    (dpi : Int) : RasterArgs :=
  { content := content, dpi := dpi, fmt := strLower format,
    jpeg_quality :=
      if (format = "JPEG" ∨ format = "JPG") ∧ quality.isSome = true then some quality
      else none }

/-- Rasterizer arguments built in serverless_main.py: `jpeg_quality = quality if
format in ["JPEG", "JPG"] else None` is always passed. -/
def serverlessConvertParams (format : String) (quality : Option Int) (content : List Nat)
    (dpi : Int) : RasterArgs :=
  { content := content, dpi := dpi, fmt := strLower format,
    jpeg_quality := some (if format = "JPEG" ∨ format = "JPG" then quality else none) }

/-- Loop `for i, image in enumerate(images, 1): ... zip_file.writestr(f"page_{i}.{format.lower()}", ...)`,
starting at index `i`.  An encoder failure aborts the whole archive. -/
def savePages {Img : Type} (save : Img → String → Except String (List Nat))
    (format : String) : List Img → Nat → Except Exn (List (String × List Nat))
  | [], _ => .ok []
  | image :: rest, i =>
    match save image format with
    | .error msg => .error (.other msg)
    | .ok bytes =>
      match savePages save format rest (i + 1) with
      | .error e => .error e
      | .ok entries =>
        .ok (("page_" ++ toString i ++ "." ++ strLower format, bytes) :: entries)

/-- Body of the `try:` block shared by both handlers (after `format = format.upper()`
and the four preceding validations): size check, rasterize, zero-page check,
single-image or ZIP assembly.  Errors are Python exceptions to be caught by the
`except Exception` clause. -/
def tryBody {Img : Type} (rasterize : RasterArgs → Except String (List Img))
    (save : Img → String → Except String (List Nat))
    (format : String) (content : List Nat) (params : RasterArgs) :
    Except Exn Response :=
  if content.length > MAX_FILE_SIZE then
    .error (.http ⟨413, "File too large. Maximum size: 50MB"⟩)
  else
    match rasterize params with
    | .error msg => .error (.other msg)
    | .ok images =>
      match images with
      | [] => .error (.http ⟨400, "No pages found in PDF"⟩)
      | image :: rest =>
        if rest.isEmpty then
          match save image format with
          | .error msg => .error (.other msg)
          | .ok bytes =>
            .ok (.single bytes ("image/" ++ strLower format)
              ("attachment; filename=page_1." ++ strLower format))
        else
          match savePages save format (image :: rest) 1 with
          | .error e => .error e
          | .ok entries =>
            .ok (.zipArchive entries "application/zip"
              "attachment; filename=pdf_images.zip")

/-- The `try: ... except Exception as e: raise HTTPException(status_code=500,
detail=f"Conversion failed: \x7bstr(e)\x7d")` wrapper around the try body. -/
def afterValidation {Img : Type} (rasterize : RasterArgs → Except String (List Img))
    (save : Img → String → Except String (List Nat))
    (format : String) (content : List Nat) (params : RasterArgs) :
    Except HTTPError Response :=
  match tryBody rasterize save format content params with
  | .ok r => .ok r
  | .error e => .error ⟨500, "Conversion failed: " ++ strOfExn e⟩

/-- Shared body of `convert_pdf_to_images` (textually identical in main.py and
serverless_main.py apart from the rasterizer-argument construction `mkParams`):
the four pre-try validations in source order, then the try block. -/
def convert_generic {Img : Type}
    (mkParams : String → Option Int → List Nat → Int → RasterArgs)
    (rasterize : RasterArgs → Except String (List Img))
    (save : Img → String → Except String (List Nat))
    (req : Request) : Except HTTPError Response :=
  if strEndsWith (strLower req.filename) ".pdf" = false then
    .error ⟨400, "File must be a PDF"⟩
  else if strUpper req.format ∉ SUPPORTED_FORMATS then
    .error ⟨400, "Unsupported format. Supported formats: PNG, JPEG, JPG, WEBP"⟩
  else if req.dpi < 72 ∨ req.dpi > 600 then
    .error ⟨400, "DPI must be between 72 and 600"⟩
  else if (strUpper req.format = "JPEG" ∨ strUpper req.format = "JPG") ∧
      qualityOutOfRange req.quality = true then
    .error ⟨400, "Quality must be between 1 and 100"⟩
  else
    afterValidation rasterize save (strUpper req.format) req.content
      (mkParams (strUpper req.format) req.quality req.content req.dpi)

/-- POST /convert handler of main.py (after the Auth Gate dependency has passed). -/
def convert_pdf_to_images {Img : Type}
    (rasterize : RasterArgs → Except String (List Img))
    (save : Img → String → Except String (List Nat))
    (req : Request) : Except HTTPError Response :=
  convert_generic mainConvertParams rasterize save req

/-- POST /convert handler of serverless_main.py. -/
def serverless_convert_pdf_to_images {Img : Type}
    (rasterize : RasterArgs → Except String (List Img))
    (save : Img → String → Except String (List Nat))
    (req : Request) : Except HTTPError Response :=
  convert_generic serverlessConvertParams rasterize save req

/-- Default of `API_KEY = os.getenv("API_KEY", "your-secret-api-key-here")`. -/
def default_API_KEY : String := "your-secret-api-key-here"

/-- Process-wide secret: `os.getenv("API_KEY", "your-secret-api-key-here")`,
with the environment modelled as a partial map from variable names to values. -/
def api_key_config (env : String → Option String) : String :=
  (env "API_KEY").getD default_API_KEY

/-- Auth Gate `verify_api_key` of main.py: reject with 401 unless the presented
bearer credential equals the configured secret, else return the credential. -/
def verify_api_key (API_KEY : String) (credentials : String) : Except HTTPError String :=
  if credentials ≠ API_KEY then
    .error ⟨401, "Invalid API key. Please provide a valid API key in the Authorization header."⟩
  else
    .ok credentials

/-- The gated variant's full pipeline: FastAPI resolves the `Depends(verify_api_key)`
dependency before the handler body runs, so an auth failure short-circuits the
request and the handler (hence the rasterizer) is never invoked. -/
def gated_convert_pdf_to_images {Img : Type} (API_KEY : String)
    (rasterize : RasterArgs → Except String (List Img))
    (save : Img → String → Except String (List Nat))
    (credentials : String) (req : Request) : Except HTTPError Response :=
  match verify_api_key API_KEY credentials with
  | .error e => .error e
  | .ok _ => convert_pdf_to_images rasterize save req

/-- Oracle for witnesses: a rasterizer that yields zero pages on any input. -/
def rasterizeNoPages : RasterArgs → Except String (List Nat) := fun _ => .ok []

/-- Oracle for witnesses: a rasterizer that throws with message "boom". -/
def rasterizeBoom : RasterArgs → Except String (List Nat) := fun _ => .error "boom"

/-- Oracle for witnesses: a rasterizer that yields one page. -/
def rasterizeOnePage : RasterArgs → Except String (List Nat) := fun _ => .ok [4]

/-- Oracle for witnesses: a rasterizer that yields two pages. -/
def rasterizeTwoPages : RasterArgs → Except String (List Nat) := fun _ => .ok [4, 5]

/-- Oracle for witnesses: a rasterizer that accepts only calls without any
`jpeg_quality` keyword and throws otherwise. -/
def rasterizeSentinelSensitive : RasterArgs → Except String (List Nat) :=
  fun a => if a.jpeg_quality = none then .ok [0] else .error "unexpected jpeg_quality argument"

/-- Oracle for witnesses: an encoder returning a one-byte body per page. -/
def saveBody : Nat → String → Except String (List Nat) := fun n _ => .ok [n]

/-- Concrete small valid request used by witnesses. -/
def reqPNGsmall : Request := ⟨"doc.pdf", "PNG", 300, none, [9]⟩

/-- Concrete request whose uploaded document exceeds `MAX_FILE_SIZE`. -/
def reqBig : Request := ⟨"big.pdf", "PNG", 300, none, List.replicate (MAX_FILE_SIZE + 1) 0⟩

/-- Expected ZIP response for `rasterizeTwoPages` with `saveBody` on `reqPNGsmall`. -/
def zipRespTwo : Response :=
  .zipArchive [("page_1.png", [4]), ("page_2.png", [5])] "application/zip"
    "attachment; filename=pdf_images.zip"

/-- Associativity of string concatenation, needed to normalise entry names. -/
theorem strAppend_assoc (a b c : String) : (a ++ b) ++ c = a ++ (b ++ c) :=
  String.append_assoc a b c

/-- Entry names written by the ZIP loop: starting at index `i`, the names are
`page_i`, `page_(i+1)`, ... with the lowercased format extension. -/
theorem savePages_ok_names {Img : Type} (save : Img → String → Except String (List Nat))
    (format : String) :
    ∀ (images : List Img) (i : Nat) (entries : List (String × List Nat)),
      savePages save format images i = .ok entries →
      entries.map Prod.fst =
        (List.range' i images.length).map
          (fun n => "page_" ++ toString n ++ "." ++ strLower format)
  | [], i, entries, h => by
    simp only [savePages] at h
    cases h
    simp
  | image :: rest, i, entries, h => by
    simp only [savePages] at h
    cases hs : save image format with
    | error msg => rw [hs] at h; cases h
    | ok bytes =>
      rw [hs] at h
      cases hrec : savePages save format rest (i + 1) with
      | error e => rw [hrec] at h; cases h
      | ok es =>
        rw [hrec] at h
        cases h
        have ih := savePages_ok_names save format rest (i + 1) es hrec
        simp only [List.length_cons, List.range'_succ, List.map_cons, List.map_map, ih]

/-- When all four pre-try validations pass, both handlers run the try block on
the upper-cased format and their respective rasterizer arguments. -/
theorem convert_generic_valid {Img : Type}
    (mkParams : String → Option Int → List Nat → Int → RasterArgs)
    (rasterize : RasterArgs → Except String (List Img))
    (save : Img → String → Except String (List Nat)) (req : Request)
    (h1 : strEndsWith (strLower req.filename) ".pdf" = true)
    (h2 : strUpper req.format ∈ SUPPORTED_FORMATS)
    (h3 : ¬(req.dpi < 72 ∨ req.dpi > 600))
    (h4 : ¬((strUpper req.format = "JPEG" ∨ strUpper req.format = "JPG") ∧
        qualityOutOfRange req.quality = true)) :
    convert_generic mkParams rasterize save req =
      afterValidation rasterize save (strUpper req.format) req.content
        (mkParams (strUpper req.format) req.quality req.content req.dpi) := by
  unfold convert_generic
  rw [if_neg (by simp [h1]), if_neg (by simp [h2]), if_neg h3, if_neg h4]

/-- C10: with the API_KEY environment variable unset, the configured secret
defaults to "your-secret-api-key-here", and presenting exactly that bearer
token passes the Auth Gate. -/
theorem C10_default_api_key (env : String → Option String)
    (h : env "API_KEY" = none) :
    api_key_config env = "your-secret-api-key-here" ∧
    verify_api_key (api_key_config env) "your-secret-api-key-here" =
      .ok "your-secret-api-key-here" := by
  have hk : api_key_config env = "your-secret-api-key-here" := by
    simp [api_key_config, h, default_API_KEY]
  exact ⟨hk, by simp [verify_api_key, hk]⟩

/-- Witness for C10 at the empty environment. -/
theorem C10_default_api_key_witness :
    api_key_config (fun _ => none) = "your-secret-api-key-here" ∧
    verify_api_key (api_key_config (fun _ => none)) "your-secret-api-key-here" =
      .ok "your-secret-api-key-here" :=
  C10_default_api_key (fun _ => none) rfl

/-- C7: in the gated variant, a credential equal to the configured secret passes
the Auth Gate silently (the pipeline equals the bare handler), and a differing
credential yields the 401 error with its human-readable message.  The 401
equation holds for every rasterizer oracle `rasterize`, so no rasterization is
attempted on the failing path. -/
theorem C7_auth_gate {Img : Type} (API_KEY credentials : String)
    (rasterize : RasterArgs → Except String (List Img))
    (save : Img → String → Except String (List Nat)) (req : Request) :
    (credentials = API_KEY →
      gated_convert_pdf_to_images API_KEY rasterize save credentials req =
        convert_pdf_to_images rasterize save req) ∧
    (credentials ≠ API_KEY →
      gated_convert_pdf_to_images API_KEY rasterize save credentials req =
        .error ⟨401, "Invalid API key. Please provide a valid API key in the Authorization header."⟩) := by
  constructor
  · intro h
    simp [gated_convert_pdf_to_images, verify_api_key, h]
  · intro h
    simp [gated_convert_pdf_to_images, verify_api_key, h]

/-- Witness for C7: the wrong credential is rejected with 401. -/
theorem C7_auth_gate_witness :
    gated_convert_pdf_to_images "k" rasterizeNoPages saveBody "bad" reqPNGsmall =
      .error ⟨401, "Invalid API key. Please provide a valid API key in the Authorization header."⟩ :=
  (C7_auth_gate "k" "bad" rasterizeNoPages saveBody reqPNGsmall).2 (by decide)

/-- C4: the five validation checks run as a strict short-circuiting chain in
source order — filename suffix, format membership, dpi range, JPEG quality
range, size limit — and the first failing check determines the reported error.
Each conjunct fixes only the outcomes of the earlier checks, so the error shown
is that of the first failure regardless of later checks; the size check's
reported error is the 500-wrapped one (see C2). -/
theorem C4_validation_chain {Img : Type}
    (rasterize : RasterArgs → Except String (List Img))
    (save : Img → String → Except String (List Nat)) (req : Request) :
    (strEndsWith (strLower req.filename) ".pdf" = false →
      convert_pdf_to_images rasterize save req = .error ⟨400, "File must be a PDF"⟩) ∧
    (strEndsWith (strLower req.filename) ".pdf" = true →
      strUpper req.format ∉ SUPPORTED_FORMATS →
      convert_pdf_to_images rasterize save req =
        .error ⟨400, "Unsupported format. Supported formats: PNG, JPEG, JPG, WEBP"⟩) ∧
    (strEndsWith (strLower req.filename) ".pdf" = true →
      strUpper req.format ∈ SUPPORTED_FORMATS →
      (req.dpi < 72 ∨ req.dpi > 600) →
      convert_pdf_to_images rasterize save req =
        .error ⟨400, "DPI must be between 72 and 600"⟩) ∧
    (strEndsWith (strLower req.filename) ".pdf" = true →
      strUpper req.format ∈ SUPPORTED_FORMATS →
      ¬(req.dpi < 72 ∨ req.dpi > 600) →
      (strUpper req.format = "JPEG" ∨ strUpper req.format = "JPG") →
      qualityOutOfRange req.quality = true →
      convert_pdf_to_images rasterize save req =
        .error ⟨400, "Quality must be between 1 and 100"⟩) ∧
    (strEndsWith (strLower req.filename) ".pdf" = true →
      strUpper req.format ∈ SUPPORTED_FORMATS →
      ¬(req.dpi < 72 ∨ req.dpi > 600) →
      ¬((strUpper req.format = "JPEG" ∨ strUpper req.format = "JPG") ∧
        qualityOutOfRange req.quality = true) →
      req.content.length > MAX_FILE_SIZE →
      convert_pdf_to_images rasterize save req =
        .error ⟨500, "Conversion failed: " ++
          strOfHTTPError ⟨413, "File too large. Maximum size: 50MB"⟩⟩) := by
  refine ⟨?_, ?_, ?_, ?_, ?_⟩
  · intro hbad
    unfold convert_pdf_to_images convert_generic
    rw [if_pos hbad]
  · intro h1 hfmt
    unfold convert_pdf_to_images convert_generic
    rw [if_neg (by simp [h1]), if_pos hfmt]
  · intro h1 h2 hdpi
    unfold convert_pdf_to_images convert_generic
    rw [if_neg (by simp [h1]), if_neg (by simp [h2]), if_pos hdpi]
  · intro h1 h2 h3 hj hq
    unfold convert_pdf_to_images convert_generic
    rw [if_neg (by simp [h1]), if_neg (by simp [h2]), if_neg h3, if_pos ⟨hj, hq⟩]
  · intro h1 h2 h3 h4 h5
    unfold convert_pdf_to_images
    rw [convert_generic_valid mainConvertParams rasterize save req h1 h2 h3 h4]
    unfold afterValidation tryBody
    rw [if_pos h5]
    rfl

/-- Witness for C4 on its first conjunct: a non-.pdf filename is rejected first. -/
theorem C4_validation_chain_witness :
    convert_pdf_to_images rasterizeNoPages saveBody ⟨"a.txt", "PNG", 300, none, []⟩ =
      .error ⟨400, "File must be a PDF"⟩ :=
  (C4_validation_chain rasterizeNoPages saveBody ⟨"a.txt", "PNG", 300, none, []⟩).1 (by decide)

/-- C2: a request passing the filename/format/dpi/quality checks whose document
exceeds MAX_FILE_SIZE fails before the Rasterizer is invoked (the equation holds
for every rasterizer oracle), but the error actually reported is NOT a 413:
the `HTTPException(413)` is raised inside the try block, caught by
`except Exception`, and re-raised as a 500 "Conversion failed: ..." error. -/
theorem C2_oversize_reported_as_500 {Img : Type}
    (rasterize : RasterArgs → Except String (List Img))
    (save : Img → String → Except String (List Nat)) (req : Request)
    (h1 : strEndsWith (strLower req.filename) ".pdf" = true)
    (h2 : strUpper req.format ∈ SUPPORTED_FORMATS)
    (h3 : ¬(req.dpi < 72 ∨ req.dpi > 600))
    (h4 : ¬((strUpper req.format = "JPEG" ∨ strUpper req.format = "JPG") ∧
        qualityOutOfRange req.quality = true))
    (h5 : req.content.length > MAX_FILE_SIZE) :
    convert_pdf_to_images rasterize save req =
      .error ⟨500, "Conversion failed: " ++
        strOfHTTPError ⟨413, "File too large. Maximum size: 50MB"⟩⟩ := by
  unfold convert_pdf_to_images
  rw [convert_generic_valid mainConvertParams rasterize save req h1 h2 h3 h4]
  unfold afterValidation tryBody
  rw [if_pos h5]
  rfl

/-- Witness for C2 at a 50MiB+1 document. -/
theorem C2_oversize_reported_as_500_witness :
    convert_pdf_to_images rasterizeNoPages saveBody reqBig =
      .error ⟨500, "Conversion failed: " ++
        strOfHTTPError ⟨413, "File too large. Maximum size: 50MB"⟩⟩ :=
  C2_oversize_reported_as_500 rasterizeNoPages saveBody reqBig (by decide) (by decide)
    (by decide) (by decide) (by simp [reqBig])

/-- C1: a request passing all five validation checks for which the Rasterizer
yields zero pages is NOT answered with the 400 "No pages found in PDF" error:
that `HTTPException(400)` is raised inside the try block, caught by
`except Exception`, and re-raised as a 500 "Conversion failed: ..." error. -/
theorem C1_zero_pages_reported_as_500 {Img : Type}
    (rasterize : RasterArgs → Except String (List Img))
    (save : Img → String → Except String (List Nat)) (req : Request)
    (h1 : strEndsWith (strLower req.filename) ".pdf" = true)
    (h2 : strUpper req.format ∈ SUPPORTED_FORMATS)
    (h3 : ¬(req.dpi < 72 ∨ req.dpi > 600))
    (h4 : ¬((strUpper req.format = "JPEG" ∨ strUpper req.format = "JPG") ∧
        qualityOutOfRange req.quality = true))
    (h5 : ¬req.content.length > MAX_FILE_SIZE)
    (hr : rasterize (mainConvertParams (strUpper req.format) req.quality req.content req.dpi) =
      .ok ([] : List Img)) :
    convert_pdf_to_images rasterize save req =
      .error ⟨500, "Conversion failed: " ++ strOfHTTPError ⟨400, "No pages found in PDF"⟩⟩ := by
  unfold convert_pdf_to_images
  rw [convert_generic_valid mainConvertParams rasterize save req h1 h2 h3 h4]
  unfold afterValidation tryBody
  rw [if_neg h5, hr]
  rfl

/-- Witness for C1 at a zero-page rasterization. -/
theorem C1_zero_pages_reported_as_500_witness :
    convert_pdf_to_images rasterizeNoPages saveBody reqPNGsmall =
      .error ⟨500, "Conversion failed: " ++ strOfHTTPError ⟨400, "No pages found in PDF"⟩⟩ :=
  C1_zero_pages_reported_as_500 rasterizeNoPages saveBody reqPNGsmall (by decide) (by decide)
    (by decide) (by decide) (by decide) rfl

/-- Encoder failure inside the multi-page archive loop: when every page before
`image` encodes successfully and encoding `image` throws `msg`, the loop aborts
with that exception. -/
theorem savePages_error_of_save_error {Img : Type}
    (save : Img → String → Except String (List Nat)) (format : String) :
    ∀ (pre : List Img) (image : Img) (post : List Img) (i : Nat) (msg : String),
      (∀ p ∈ pre, ∃ b, save p format = .ok b) →
      save image format = .error msg →
      savePages save format (pre ++ image :: post) i = .error (.other msg)
  | [], image, post, i, msg, hpre, hs => by
    simp [savePages, hs]
  | p :: pre, image, post, i, msg, hpre, hs => by
    obtain ⟨b, hb⟩ := hpre p (by simp)
    have ih := savePages_error_of_save_error save format pre image post (i + 1) msg
      (fun q hq => hpre q (by simp [hq])) hs
    simp [savePages, hb, ih]

/-- Downstream failures inside the try block — a throwing rasterizer, a
throwing encoder on the single-page path, or a failing archive loop on the
multi-page path — are caught by the except clause and reported as the uniform
500 error wrapping the underlying message, for either variant's argument
builder. -/
theorem convert_generic_wraps_downstream {Img : Type}
    (mkParams : String → Option Int → List Nat → Int → RasterArgs)
    (rasterize : RasterArgs → Except String (List Img))
    (save : Img → String → Except String (List Nat)) (req : Request) (msg : String)
    (h1 : strEndsWith (strLower req.filename) ".pdf" = true)
    (h2 : strUpper req.format ∈ SUPPORTED_FORMATS)
    (h3 : ¬(req.dpi < 72 ∨ req.dpi > 600))
    (h4 : ¬((strUpper req.format = "JPEG" ∨ strUpper req.format = "JPG") ∧
        qualityOutOfRange req.quality = true))
    (h5 : ¬req.content.length > MAX_FILE_SIZE) :
    (rasterize (mkParams (strUpper req.format) req.quality req.content req.dpi) = .error msg →
      convert_generic mkParams rasterize save req =
        .error ⟨500, "Conversion failed: " ++ msg⟩) ∧
    (∀ image : Img,
      rasterize (mkParams (strUpper req.format) req.quality req.content req.dpi) = .ok [image] →
      save image (strUpper req.format) = .error msg →
      convert_generic mkParams rasterize save req =
        .error ⟨500, "Conversion failed: " ++ msg⟩) ∧
    (∀ (image : Img) (rest : List Img),
      rasterize (mkParams (strUpper req.format) req.quality req.content req.dpi) =
        .ok (image :: rest) →
      rest.isEmpty = false →
      savePages save (strUpper req.format) (image :: rest) 1 = .error (.other msg) →
      convert_generic mkParams rasterize save req =
        .error ⟨500, "Conversion failed: " ++ msg⟩) := by
  refine ⟨?_, ?_, ?_⟩
  · intro hr
    rw [convert_generic_valid mkParams rasterize save req h1 h2 h3 h4]
    unfold afterValidation tryBody
    rw [if_neg h5, hr]
    rfl
  · intro image hr hs
    rw [convert_generic_valid mkParams rasterize save req h1 h2 h3 h4]
    unfold afterValidation tryBody
    rw [if_neg h5, hr]
    simp only [List.isEmpty_nil, if_pos, hs]
    rfl
  · intro image rest hr hrest hsp
    rw [convert_generic_valid mkParams rasterize save req h1 h2 h3 h4]
    unfold afterValidation tryBody
    rw [if_neg h5, hr]
    simp only [hrest, hsp]
    rfl

/-- A multi-page encoder failure reaches the uniform 500: if rasterization
yields `pre ++ image :: post` with more than one page, every page of `pre`
encodes successfully and encoding `image` throws `msg`, the handler reports
the wrapped 500.  Shared by both variants via `mkParams`. -/
theorem convert_generic_wraps_archive_encoder_failure {Img : Type}
    (mkParams : String → Option Int → List Nat → Int → RasterArgs)
    (rasterize : RasterArgs → Except String (List Img))
    (save : Img → String → Except String (List Nat)) (req : Request) (msg : String)
    (h1 : strEndsWith (strLower req.filename) ".pdf" = true)
    (h2 : strUpper req.format ∈ SUPPORTED_FORMATS)
    (h3 : ¬(req.dpi < 72 ∨ req.dpi > 600))
    (h4 : ¬((strUpper req.format = "JPEG" ∨ strUpper req.format = "JPG") ∧
        qualityOutOfRange req.quality = true))
    (h5 : ¬req.content.length > MAX_FILE_SIZE)
    (pre : List Img) (image : Img) (post : List Img)
    (hr : rasterize (mkParams (strUpper req.format) req.quality req.content req.dpi) =
      .ok (pre ++ image :: post))
    (hlen : 1 < (pre ++ image :: post).length)
    (hpre : ∀ p ∈ pre, ∃ b, save p (strUpper req.format) = .ok b)
    (hs : save image (strUpper req.format) = .error msg) :
    convert_generic mkParams rasterize save req =
      .error ⟨500, "Conversion failed: " ++ msg⟩ := by
  have hsp : savePages save (strUpper req.format) (pre ++ image :: post) 1 =
      .error (.other msg) :=
    savePages_error_of_save_error save (strUpper req.format) pre image post 1 msg hpre hs
  rcases hlist : pre ++ image :: post with _ | ⟨q, rest⟩
  · rw [hlist] at hlen
    simp at hlen
  · rw [hlist] at hr hsp hlen
    have hrest : rest.isEmpty = false := by
      cases rest with
      | nil => simp at hlen
      | cons b t => simp
    exact (convert_generic_wraps_downstream mkParams rasterize save req msg
      h1 h2 h3 h4 h5).2.2 q rest hr hrest hsp

/-- C5: for a request that passes all validations, every failure thrown by the
Rasterizer, or by the Encoder on the single-page path or at any page of the
multi-page archive loop, is caught by the handler's except clause and reported
as the single uniform 500 error whose detail is "Conversion failed: " followed
by the underlying failure's message — in the gated (main.py) variant and in
the serverless variant alike. -/
theorem C5_downstream_failures_wrapped {Img : Type}
    (rasterize : RasterArgs → Except String (List Img))
    (save : Img → String → Except String (List Nat)) (req : Request) (msg : String)
    (h1 : strEndsWith (strLower req.filename) ".pdf" = true)
    (h2 : strUpper req.format ∈ SUPPORTED_FORMATS)
    (h3 : ¬(req.dpi < 72 ∨ req.dpi > 600))
    (h4 : ¬((strUpper req.format = "JPEG" ∨ strUpper req.format = "JPG") ∧
        qualityOutOfRange req.quality = true))
    (h5 : ¬req.content.length > MAX_FILE_SIZE) :
    (rasterize (mainConvertParams (strUpper req.format) req.quality req.content req.dpi) =
        .error msg →
      convert_pdf_to_images rasterize save req =
        .error ⟨500, "Conversion failed: " ++ msg⟩) ∧
    (∀ image : Img,
      rasterize (mainConvertParams (strUpper req.format) req.quality req.content req.dpi) =
        .ok [image] →
      save image (strUpper req.format) = .error msg →
      convert_pdf_to_images rasterize save req =
        .error ⟨500, "Conversion failed: " ++ msg⟩) ∧
    (∀ (pre : List Img) (image : Img) (post : List Img),
      rasterize (mainConvertParams (strUpper req.format) req.quality req.content req.dpi) =
        .ok (pre ++ image :: post) →
      1 < (pre ++ image :: post).length →
      (∀ p ∈ pre, ∃ b, save p (strUpper req.format) = .ok b) →
      save image (strUpper req.format) = .error msg →
      convert_pdf_to_images rasterize save req =
        .error ⟨500, "Conversion failed: " ++ msg⟩) ∧
    (rasterize (serverlessConvertParams (strUpper req.format) req.quality req.content req.dpi) =
        .error msg →
      serverless_convert_pdf_to_images rasterize save req =
        .error ⟨500, "Conversion failed: " ++ msg⟩) ∧
    (∀ image : Img,
      rasterize (serverlessConvertParams (strUpper req.format) req.quality req.content req.dpi) =
        .ok [image] →
      save image (strUpper req.format) = .error msg →
      serverless_convert_pdf_to_images rasterize save req =
        .error ⟨500, "Conversion failed: " ++ msg⟩) ∧
    (∀ (pre : List Img) (image : Img) (post : List Img),
      rasterize (serverlessConvertParams (strUpper req.format) req.quality req.content req.dpi) =
        .ok (pre ++ image :: post) →
      1 < (pre ++ image :: post).length →
      (∀ p ∈ pre, ∃ b, save p (strUpper req.format) = .ok b) →
      save image (strUpper req.format) = .error msg →
      serverless_convert_pdf_to_images rasterize save req =
        .error ⟨500, "Conversion failed: " ++ msg⟩) := by
  refine ⟨?_, ?_, ?_, ?_, ?_, ?_⟩
  · exact (convert_generic_wraps_downstream mainConvertParams rasterize save req msg
      h1 h2 h3 h4 h5).1
  · exact (convert_generic_wraps_downstream mainConvertParams rasterize save req msg
      h1 h2 h3 h4 h5).2.1
  · intro pre image post hr hlen hpre hs
    exact convert_generic_wraps_archive_encoder_failure mainConvertParams rasterize save req
      msg h1 h2 h3 h4 h5 pre image post hr hlen hpre hs
  · exact (convert_generic_wraps_downstream serverlessConvertParams rasterize save req msg
      h1 h2 h3 h4 h5).1
  · exact (convert_generic_wraps_downstream serverlessConvertParams rasterize save req msg
      h1 h2 h3 h4 h5).2.1
  · intro pre image post hr hlen hpre hs
    exact convert_generic_wraps_archive_encoder_failure serverlessConvertParams rasterize save
      req msg h1 h2 h3 h4 h5 pre image post hr hlen hpre hs

/-- Witness for C5: a throwing rasterizer surfaces as the wrapped 500. -/
theorem C5_downstream_failures_wrapped_witness :
    convert_pdf_to_images rasterizeBoom saveBody reqPNGsmall =
      .error ⟨500, "Conversion failed: boom"⟩ :=
  (C5_downstream_failures_wrapped rasterizeBoom saveBody reqPNGsmall "boom" (by decide)
    (by decide) (by decide) (by decide) (by decide)).1 rfl

/-- C6: with format JPEG/JPG and a supplied quality q, the handler rejects
q < 1 or q > 100 with the quality error, passes the check for 1 ≤ q ≤ 100
(continuing into the try block with jpeg_quality=q forwarded), and for the
other supported formats any supplied quality is accepted without effect and the
`jpeg_quality` key is not added to the Rasterizer call. -/
theorem C6_quality_validation_and_forwarding {Img : Type}
    (rasterize : RasterArgs → Except String (List Img))
    (save : Img → String → Except String (List Nat)) (req : Request) (q : Int)
    (h1 : strEndsWith (strLower req.filename) ".pdf" = true)
    (h3 : ¬(req.dpi < 72 ∨ req.dpi > 600)) :
    ((strUpper req.format = "JPEG" ∨ strUpper req.format = "JPG") →
      req.quality = some q → (q < 1 ∨ q > 100) →
      convert_pdf_to_images rasterize save req =
        .error ⟨400, "Quality must be between 1 and 100"⟩) ∧
    ((strUpper req.format = "JPEG" ∨ strUpper req.format = "JPG") →
      req.quality = some q → 1 ≤ q → q ≤ 100 →
      convert_pdf_to_images rasterize save req =
        afterValidation rasterize save (strUpper req.format) req.content
          (mainConvertParams (strUpper req.format) req.quality req.content req.dpi) ∧
      (mainConvertParams (strUpper req.format) req.quality req.content req.dpi).jpeg_quality =
        some (some q)) ∧
    ((strUpper req.format = "PNG" ∨ strUpper req.format = "WEBP") →
      convert_pdf_to_images rasterize save req =
        afterValidation rasterize save (strUpper req.format) req.content
          (mainConvertParams (strUpper req.format) req.quality req.content req.dpi) ∧
      (mainConvertParams (strUpper req.format) req.quality req.content req.dpi).jpeg_quality =
        none) := by
  refine ⟨?_, ?_, ?_⟩
  · intro hj hqe hrange
    have hmem : strUpper req.format ∈ SUPPORTED_FORMATS := by
      rcases hj with h | h <;> rw [h] <;> decide
    have hq : qualityOutOfRange req.quality = true := by
      rw [hqe]; rcases hrange with h | h <;> simp [qualityOutOfRange, h]
    unfold convert_pdf_to_images convert_generic
    rw [if_neg (by simp [h1]), if_neg (by simp [hmem]), if_neg h3, if_pos ⟨hj, hq⟩]
  · intro hj hqe hlo hhi
    have hmem : strUpper req.format ∈ SUPPORTED_FORMATS := by
      rcases hj with h | h <;> rw [h] <;> decide
    have h4 : ¬((strUpper req.format = "JPEG" ∨ strUpper req.format = "JPG") ∧
        qualityOutOfRange req.quality = true) := by
      rintro ⟨-, hq⟩
      rw [hqe] at hq
      simp [qualityOutOfRange] at hq
      omega
    constructor
    · exact convert_generic_valid mainConvertParams rasterize save req h1 hmem h3 h4
    · simp [mainConvertParams, hj, hqe]
  · intro hf
    have hmem : strUpper req.format ∈ SUPPORTED_FORMATS := by
      rcases hf with h | h <;> rw [h] <;> decide
    have hnj : ¬(strUpper req.format = "JPEG" ∨ strUpper req.format = "JPG") := by
      rcases hf with h | h <;> rw [h] <;> decide
    have h4 : ¬((strUpper req.format = "JPEG" ∨ strUpper req.format = "JPG") ∧
        qualityOutOfRange req.quality = true) := fun hcon => hnj hcon.1
    constructor
    · exact convert_generic_valid mainConvertParams rasterize save req h1 hmem h3 h4
    · simp [mainConvertParams, hnj]

/-- Witness for C6: format JPEG with quality 0 is rejected with the quality error. -/
theorem C6_quality_validation_and_forwarding_witness :
    convert_pdf_to_images rasterizeNoPages saveBody ⟨"a.pdf", "JPEG", 300, some 0, [1]⟩ =
      .error ⟨400, "Quality must be between 1 and 100"⟩ :=
  (C6_quality_validation_and_forwarding rasterizeNoPages saveBody
    ⟨"a.pdf", "JPEG", 300, some 0, [1]⟩ 0 (by decide) (by decide)).1
    (Or.inl (by decide)) rfl (Or.inl (by decide))

/-- C3: every successful conversion's shape is chosen solely by page count —
one rasterized page yields a single image body with media type image/<ext> and
Content-Disposition filename page_1.<ext>; N > 1 pages yield the ZIP archive
pdf_images.zip containing exactly N entries named page_1.<ext> … page_N.<ext>
in ascending page order, where <ext> is the lowercased (upper-cased) format. -/
theorem C3_result_shape_by_page_count {Img : Type}
    (rasterize : RasterArgs → Except String (List Img))
    (save : Img → String → Except String (List Nat)) (req : Request) (r : Response)
    (h : convert_pdf_to_images rasterize save req = .ok r) :
    ∃ images : List Img,
      rasterize (mainConvertParams (strUpper req.format) req.quality req.content req.dpi) =
        .ok images ∧
      ((images.length = 1 ∧ ∃ body,
          r = .single body ("image/" ++ strLower (strUpper req.format))
            ("attachment; filename=page_1." ++ strLower (strUpper req.format))) ∨
       (1 < images.length ∧ ∃ entries,
          r = .zipArchive entries "application/zip" "attachment; filename=pdf_images.zip" ∧
          entries.length = images.length ∧
          entries.map Prod.fst = (List.range' 1 images.length).map
            (fun n => "page_" ++ toString n ++ "." ++ strLower (strUpper req.format)))) := by
  unfold convert_pdf_to_images convert_generic at h
  split at h
  · exact absurd h (by simp)
  · split at h
    · exact absurd h (by simp)
    · split at h
      · exact absurd h (by simp)
      · split at h
        · exact absurd h (by simp)
        · unfold afterValidation at h
          cases htb : tryBody rasterize save (strUpper req.format) req.content
              (mainConvertParams (strUpper req.format) req.quality req.content req.dpi) with
          | error e => rw [htb] at h; exact absurd h (by simp)
          | ok rr =>
            rw [htb] at h
            have h' : rr = r := by injection h
            subst h'
            unfold tryBody at htb
            split at htb
            · exact absurd htb (by simp)
            · split at htb
              · exact absurd htb (by simp)
              · rename_i images hrast
                split at htb
                · exact absurd htb (by simp)
                · rename_i image rest
                  refine ⟨image :: rest, hrast, ?_⟩
                  split at htb
                  · rename_i hre
                    split at htb
                    · exact absurd htb (by simp)
                    · rename_i bytes hsave
                      have h2 : Response.single bytes ("image/" ++ strLower (strUpper req.format))
                          ("attachment; filename=page_1." ++ strLower (strUpper req.format)) = rr := by
                        injection htb
                      subst h2
                      left
                      have hrest : rest = [] := List.isEmpty_iff.mp hre
                      subst hrest
                      exact ⟨rfl, bytes, rfl⟩
                  · rename_i hre
                    split at htb
                    · exact absurd htb (by simp)
                    · rename_i entries hsp
                      have h2 : Response.zipArchive entries "application/zip"
                          "attachment; filename=pdf_images.zip" = rr := by
                        injection htb
                      subst h2
                      right
                      have hnames := savePages_ok_names save (strUpper req.format)
                        (image :: rest) 1 entries hsp
                      have hlen : entries.length = (image :: rest).length := by
                        have hl := congrArg List.length hnames
                        simpa using hl
                      have hgt : 1 < (image :: rest).length := by
                        cases rest with
                        | nil => simp at hre
                        | cons b t => simp
                      exact ⟨hgt, entries, rfl, hlen, hnames⟩

/-- Witness for C3 at a two-page rasterization of a PNG request. -/
theorem C3_result_shape_by_page_count_witness :
    ∃ images : List Nat,
      rasterizeTwoPages (mainConvertParams (strUpper reqPNGsmall.format) reqPNGsmall.quality
        reqPNGsmall.content reqPNGsmall.dpi) = .ok images ∧
      ((images.length = 1 ∧ ∃ body,
          zipRespTwo = .single body ("image/" ++ strLower (strUpper reqPNGsmall.format))
            ("attachment; filename=page_1." ++ strLower (strUpper reqPNGsmall.format))) ∨
       (1 < images.length ∧ ∃ entries,
          zipRespTwo = .zipArchive entries "application/zip"
            "attachment; filename=pdf_images.zip" ∧
          entries.length = images.length ∧
          entries.map Prod.fst = (List.range' 1 images.length).map
            (fun n => "page_" ++ toString n ++ "." ++ strLower (strUpper reqPNGsmall.format)))) :=
  C3_result_shape_by_page_count rasterizeTwoPages saveBody reqPNGsmall zipRespTwo rfl

/-- Rasterizer arguments the rasterizer cannot tell apart give the same try
block outcome: the arguments are used only in the `rasterize params` call. -/
theorem tryBody_congr_params {Img : Type}
    (rasterize : RasterArgs → Except String (List Img))
    (save : Img → String → Except String (List Nat))
    (format : String) (content : List Nat) (p1 p2 : RasterArgs)
    (h : rasterize p1 = rasterize p2) :
    tryBody rasterize save format content p1 = tryBody rasterize save format content p2 := by
  unfold tryBody
  rw [h]

/-- For a rasterizer that does not distinguish an absent `jpeg_quality` keyword
from `jpeg_quality=None`, the two variants' argument constructions give the same
rasterization outcome: they agree exactly except that serverless_main.py passes
`some none` where main.py omits the key. -/
theorem rasterize_main_eq_serverless {Img : Type}
    (rasterize : RasterArgs → Except String (List Img))
    (hins : ∀ (c : List Nat) (d : Int) (f : String),
      rasterize ⟨c, d, f, none⟩ = rasterize ⟨c, d, f, some none⟩)
    (format : String) (quality : Option Int) (content : List Nat) (dpi : Int) :
    rasterize (mainConvertParams format quality content dpi) =
      rasterize (serverlessConvertParams format quality content dpi) := by
  unfold mainConvertParams serverlessConvertParams
  by_cases hj : format = "JPEG" ∨ format = "JPG"
  · cases quality with
    | none => simpa [hj] using hins content dpi (strLower format)
    | some q => simp [hj]
  · simpa [hj] using hins content dpi (strLower format)

/-- The shared handler body is congruent in the rasterizer-argument builder,
up to rasterizer-indistinguishable arguments. -/
theorem convert_generic_congr {Img : Type}
    (mk1 mk2 : String → Option Int → List Nat → Int → RasterArgs)
    (rasterize : RasterArgs → Except String (List Img))
    (save : Img → String → Except String (List Nat)) (req : Request)
    (h : ∀ f q c d, rasterize (mk1 f q c d) = rasterize (mk2 f q c d)) :
    convert_generic mk1 rasterize save req = convert_generic mk2 rasterize save req := by
  unfold convert_generic
  by_cases c1 : strEndsWith (strLower req.filename) ".pdf" = false
  · rw [if_pos c1, if_pos c1]
  · rw [if_neg c1, if_neg c1]
    by_cases c2 : strUpper req.format ∉ SUPPORTED_FORMATS
    · rw [if_pos c2, if_pos c2]
    · rw [if_neg c2, if_neg c2]
      by_cases c3 : req.dpi < 72 ∨ req.dpi > 600
      · rw [if_pos c3, if_pos c3]
      · rw [if_neg c3, if_neg c3]
        by_cases c4 : (strUpper req.format = "JPEG" ∨ strUpper req.format = "JPG") ∧
            qualityOutOfRange req.quality = true
        · rw [if_pos c4, if_pos c4]
        · rw [if_neg c4, if_neg c4]
          unfold afterValidation
          rw [tryBody_congr_params rasterize save (strUpper req.format) req.content _ _
            (h (strUpper req.format) req.quality req.content req.dpi)]

/-- C8 counterexample: for format PNG the gated variant calls the Rasterizer
WITHOUT any jpeg_quality keyword while the serverless variant passes
jpeg_quality=None, so the Rasterizer argument lists differ and a rasterizer
that is sensitive to the null sentinel makes the two variants' results differ
on the same authorized request. -/
theorem C8_variants_not_identical :
    mainConvertParams "PNG" none [9] 300 ≠ serverlessConvertParams "PNG" none [9] 300 ∧
    gated_convert_pdf_to_images default_API_KEY rasterizeSentinelSensitive saveBody
        default_API_KEY reqPNGsmall ≠
      serverless_convert_pdf_to_images rasterizeSentinelSensitive saveBody reqPNGsmall := by
  constructor
  · decide
  · have h1 : gated_convert_pdf_to_images default_API_KEY rasterizeSentinelSensitive saveBody
        default_API_KEY reqPNGsmall =
        .ok (.single [0] "image/png" "attachment; filename=page_1.png") := rfl
    have h2 : serverless_convert_pdf_to_images rasterizeSentinelSensitive saveBody reqPNGsmall =
        .error ⟨500, "Conversion failed: unexpected jpeg_quality argument"⟩ := rfl
    rw [h1, h2]
    intro hcon
    exact Except.noConfusion hcon

/-- C8 (amended): for every authorized request, the gated and serverless
variants produce identical results PROVIDED the rasterizer treats an omitted
jpeg_quality keyword the same as jpeg_quality=None; the argument lists
themselves differ in exactly that sentinel (see the counterexample). -/
theorem C8_variants_agree_modulo_sentinel {Img : Type}
    (rasterize : RasterArgs → Except String (List Img))
    (save : Img → String → Except String (List Nat))
    (API_KEY credentials : String) (req : Request)
    (hauth : credentials = API_KEY)
    (hins : ∀ (c : List Nat) (d : Int) (f : String),
      rasterize ⟨c, d, f, none⟩ = rasterize ⟨c, d, f, some none⟩) :
    gated_convert_pdf_to_images API_KEY rasterize save credentials req =
      serverless_convert_pdf_to_images rasterize save req := by
  have hgate : gated_convert_pdf_to_images API_KEY rasterize save credentials req =
      convert_pdf_to_images rasterize save req := by
    unfold gated_convert_pdf_to_images verify_api_key
    rw [if_neg (by simp [hauth])]
  rw [hgate]
  unfold convert_pdf_to_images serverless_convert_pdf_to_images
  exact convert_generic_congr mainConvertParams serverlessConvertParams rasterize save req
    (fun f q c d => rasterize_main_eq_serverless rasterize hins f q c d)

/-- Witness for the amended C8 with a sentinel-insensitive rasterizer. -/
theorem C8_variants_agree_modulo_sentinel_witness :
    gated_convert_pdf_to_images default_API_KEY rasterizeOnePage saveBody default_API_KEY
        reqPNGsmall =
      serverless_convert_pdf_to_images rasterizeOnePage saveBody reqPNGsmall :=
  C8_variants_agree_modulo_sentinel rasterizeOnePage saveBody default_API_KEY default_API_KEY
    reqPNGsmall rfl (fun _ _ _ => rfl)

/-- C9: extension and media type are the lowercased upper-cased format with no
canonicalization of the JPG alias: any casing of "jpg" yields media type
image/jpg, filename page_1.jpg and ZIP entry names page_n.jpg, while "jpeg"
yields image/jpeg and .jpeg names. -/
theorem C9_jpg_alias_not_canonicalized {Img : Type} :
    (∀ (rasterize : RasterArgs → Except String (List Img))
       (save : Img → String → Except String (List Nat)) (req : Request)
       (image : Img) (bytes : List Nat),
      strEndsWith (strLower req.filename) ".pdf" = true →
      strUpper req.format = "JPG" →
      ¬(req.dpi < 72 ∨ req.dpi > 600) →
      qualityOutOfRange req.quality = false →
      ¬req.content.length > MAX_FILE_SIZE →
      rasterize (mainConvertParams "JPG" req.quality req.content req.dpi) = .ok [image] →
      save image "JPG" = .ok bytes →
      convert_pdf_to_images rasterize save req =
        .ok (.single bytes "image/jpg" "attachment; filename=page_1.jpg")) ∧
    (∀ (rasterize : RasterArgs → Except String (List Img))
       (save : Img → String → Except String (List Nat)) (req : Request)
       (image : Img) (bytes : List Nat),
      strEndsWith (strLower req.filename) ".pdf" = true →
      strUpper req.format = "JPEG" →
      ¬(req.dpi < 72 ∨ req.dpi > 600) →
      qualityOutOfRange req.quality = false →
      ¬req.content.length > MAX_FILE_SIZE →
      rasterize (mainConvertParams "JPEG" req.quality req.content req.dpi) = .ok [image] →
      save image "JPEG" = .ok bytes →
      convert_pdf_to_images rasterize save req =
        .ok (.single bytes "image/jpeg" "attachment; filename=page_1.jpeg")) ∧
    (∀ (save : Img → String → Except String (List Nat)) (images : List Img)
       (entries : List (String × List Nat)),
      savePages save "JPG" images 1 = .ok entries →
      entries.map Prod.fst =
        (List.range' 1 images.length).map (fun n => "page_" ++ toString n ++ ".jpg")) := by
  refine ⟨?_, ?_, ?_⟩
  · intro rasterize save req image bytes h1 hf h3 hqf h5 hr hs
    have hmem : strUpper req.format ∈ SUPPORTED_FORMATS := by rw [hf]; decide
    have h4 : ¬((strUpper req.format = "JPEG" ∨ strUpper req.format = "JPG") ∧
        qualityOutOfRange req.quality = true) := by
      rintro ⟨-, hq⟩
      rw [hqf] at hq
      cases hq
    unfold convert_pdf_to_images
    rw [convert_generic_valid mainConvertParams rasterize save req h1 hmem h3 h4, hf]
    unfold afterValidation tryBody
    rw [if_neg h5, hr]
    simp only [hs]
    rfl
  · intro rasterize save req image bytes h1 hf h3 hqf h5 hr hs
    have hmem : strUpper req.format ∈ SUPPORTED_FORMATS := by rw [hf]; decide
    have h4 : ¬((strUpper req.format = "JPEG" ∨ strUpper req.format = "JPG") ∧
        qualityOutOfRange req.quality = true) := by
      rintro ⟨-, hq⟩
      rw [hqf] at hq
      cases hq
    unfold convert_pdf_to_images
    rw [convert_generic_valid mainConvertParams rasterize save req h1 hmem h3 h4, hf]
    unfold afterValidation tryBody
    rw [if_neg h5, hr]
    simp only [hs]
    rfl
  · intro save images entries hsp
    have hnames := savePages_ok_names save "JPG" images 1 entries hsp
    rw [hnames]
    apply List.map_congr_left
    intro a _
    rw [strAppend_assoc]
    rfl

/-- Witness for C9 on a mixed-case "jPg" single-page request. -/
theorem C9_jpg_alias_not_canonicalized_witness :
    convert_pdf_to_images rasterizeOnePage saveBody ⟨"d.pdf", "jPg", 300, none, [2]⟩ =
      .ok (.single [4] "image/jpg" "attachment; filename=page_1.jpg") :=
  (@C9_jpg_alias_not_canonicalized Nat).1 rasterizeOnePage saveBody
    ⟨"d.pdf", "jPg", 300, none, [2]⟩ 4 [4] (by decide) (by decide) (by decide) (by decide)
    (by decide) rfl rfl

end Pdf2Image
